import Mathlib

/-!
Shallow embedding of the model-doc-agent summarization pipeline
(src/model_doc_agent/src/chunker.py, cache.py, summarization.py,
orchestrator.py) together with proofs settling the specification
claims C1-C10.

Conventions.
* Python strings are modeled as lists of characters (`Str`).
* Python `int` values in this code are non-negative (sizes, counts,
  indices), so they are modeled as `Nat`.
* External collaborators (the SHA-256 hash, the LangChain LLM call,
  `json.dumps` of keyword arguments, the filesystem) are modeled as
  explicit function parameters or explicit state, mirroring the fact
  that `run_summarization` receives its collaborators as parameters.
* The two spots where Python computes with floats
  (`int(len(text)/3.5)` and `math.ceil(est/50000)`,
  `int(size * 0.1)`, `math.floor(chars/n)`) are modeled by exact
  rational arithmetic on `Nat` (`2 * len / 7`, `(est + 49999) / 50000`,
  `size / 10`, `chars / n`): for all magnitudes reachable here the
  IEEE-754 double results agree with the exact values, because the
  quotients never round across an integer boundary.
-/

namespace MDA

/-- Python strings, modeled as lists of characters. -/
abbrev Str := List Char

/-- Python `s.strip()`: drop leading and trailing whitespace. -/
def pyStrip (s : Str) : Str :=
  ((s.dropWhile Char.isWhitespace).reverse.dropWhile Char.isWhitespace).reverse

/-- Python falsity of `s.strip()` (i.e. `not s.strip()`): `s` is empty or
consists of whitespace only. -/
def isBlank (s : Str) : Bool := s.all Char.isWhitespace

/-- Python `sep.join(parts)`. -/
def sepJoin (sep : Str) : List Str → Str
  | [] => []
  | [s] => s
  | s :: rest => s ++ sep ++ sepJoin sep rest

/-- Python `s.endswith(t)`. -/
def pyEndsWith (s t : Str) : Bool := s.drop (s.length - t.length) == t

/-- Python `s.startswith("Error:")`, the error-marker test used by the
orchestrator (orchestrator.py 190, 199). -/
def startsWithError (s : Str) : Bool := s.take 6 == "Error:".toList

/-- Decimal rendering of a natural number, as interpolated by a Python
f-string. -/
def natToStr (n : Nat) : Str := (Nat.repr n).toList

/-! ## TextChunker (chunker.py 180-251) -/

/-- A chunk dictionary as produced by `TextChunker.chunk_text`
(chunker.py 220-224): `content`, `section_name`, `chunk_index`. -/
structure Chunk where
  content : Str
  sectionName : Option Str
  chunkIndex : Nat
deriving DecidableEq

/-- The advance of `start` in the `chunk_text` loop (chunker.py
228-231): `start = end` when `max_chunk_size - overlap <= 0`, otherwise
`start += max_chunk_size - overlap`. -/
def nextStart (maxSize ovl start : Nat) : Nat :=
  if maxSize ≤ ovl then start + maxSize else start + (maxSize - ovl)

/-- The while-loop of `TextChunker.chunk_text` (chunker.py 216-241),
written with explicit fuel; the state is `(start, chunk_index)` and the
returned list holds the chunks appended from the current state onward
(`current_chunk_content = text[start : start + max_chunk_size]`).
`none` means the fuel ran out; for parameter values on which the source
loop diverges this holds for every fuel. -/
def chunkLoop (maxSize ovl : Nat) (text : Str) (sn : Option Str) :
    Nat → Nat → Nat → Option (List Chunk)
  | 0, _, _ => none
  | fuel + 1, start, idx =>
    if start < text.length then
      -- small-remainder handling and break (chunker.py 234-241)
      if text.length - nextStart maxSize ovl start < ovl ∧
          nextStart maxSize ovl start < text.length then
        some (⟨(text.drop start).take maxSize, sn, idx⟩ ::
          (if pyEndsWith ((text.drop start).take maxSize)
              ((text.drop (nextStart maxSize ovl start)).take ovl) then
            if ovl < (text.drop (nextStart maxSize ovl start)).length then
              [⟨text.drop (nextStart maxSize ovl start + ovl), sn, idx + 1⟩]
            else []
          else if 0 < (text.drop (nextStart maxSize ovl start)).length then
            [⟨text.drop (nextStart maxSize ovl start), sn, idx + 1⟩]
          else []))
      else
        (chunkLoop maxSize ovl text sn fuel (nextStart maxSize ovl start) (idx + 1)).map
          (⟨(text.drop start).take maxSize, sn, idx⟩ :: ·)
    else some []

/-- `TextChunker.chunk_text` (chunker.py 196-251).  The fuel
`text.length + 1` is sufficient whenever `max_chunk_size ≥ 1` because
`start` then strictly increases; `getD []` is never taken on that
domain (proved below for `overlap < max_chunk_size`). -/
def chunk_text (maxSize ovl : Nat) (text : Str) (sn : Option Str) : List Chunk :=
  if text = [] then []
  else (chunkLoop maxSize ovl text sn (text.length + 1) 0 0).getD []

/-- Closed-form count of the chunks emitted by `chunk_text` when
`overlap < max_chunk_size`: windows are emitted while the start offset
is below the text length, except that emission stops as soon as the
text remaining past the next start offset is shorter than `overlap`. -/
def chunkCount (maxSize ovl L : Nat) : Nat :=
  if L = 0 then 0 else (L - max ovl 1) / (maxSize - ovl) + 1

/-- Concatenation of the non-overlapping spans of a list of chunk
contents: every chunk but the last contributes its first `step`
characters, the last chunk contributes all of its content. -/
def nonOverlapJoin (step : Nat) : List Str → Str
  | [] => []
  | [c] => c
  | c :: rest => c.take step ++ nonOverlapJoin step rest

lemma nonOverlapJoin_cons (step : Nat) (c : Str) (l : List Str) (hl : l ≠ []) :
    nonOverlapJoin step (c :: l) = c.take step ++ nonOverlapJoin step l := by
  cases l with
  | nil => exact absurd rfl hl
  | cons d rest => rfl

lemma range_map_shift {α : Type} (f : Nat → α) (n : Nat) :
    (List.range (n + 1)).map f = f 0 :: (List.range n).map (fun j => f (j + 1)) := by
  rw [List.range_succ_eq_map]
  simp [Function.comp_def, Nat.succ_eq_add_one]

/-- Loop invariant for `chunkLoop` when `overlap < max_chunk_size`:
from state `(start, idx)` it emits the sliding windows starting at
`start, start + step, ...`, stopping early once the remaining text past
the next window start is shorter than `overlap`. -/
lemma chunkLoop_closed (maxSize ovl : Nat) (text : Str) (sn : Option Str)
    (h : ovl < maxSize) :
    ∀ fuel start idx, text.length - start < fuel →
      chunkLoop maxSize ovl text sn fuel start idx =
        some (if text.length ≤ start then []
          else (List.range ((text.length - start - max ovl 1) / (maxSize - ovl) + 1)).map
            (fun j => ⟨(text.drop (start + j * (maxSize - ovl))).take maxSize, sn, idx + j⟩)) := by
  have hns : ∀ start, nextStart maxSize ovl start = start + (maxSize - ovl) := by
    intro start
    rw [nextStart, if_neg (show ¬ maxSize ≤ ovl by omega)]
  intro fuel
  induction fuel with
  | zero => intro start idx hf; omega
  | succ fuel ih =>
    intro start idx hf
    set L := text.length with hL
    set step := maxSize - ovl with hstep
    have hstep1 : 1 ≤ step := by omega
    by_cases hs : start < L
    · rw [chunkLoop]
      rw [if_pos hs]
      simp only [hns, ← hL, ← hstep]
      by_cases hb : L - (start + step) < ovl ∧ start + step < L
      · -- break branch: the rest of the text is shorter than the overlap
        rw [if_pos hb]
        obtain ⟨hb1, hb2⟩ := hb
        have hovl1 : 1 ≤ ovl := by omega
        have hLlt : L < start + maxSize := by omega
        have hcur_len : (text.drop (start + step)).length = L - (start + step) := by
          simp [← hL]
        have hcfull : (text.drop start).take maxSize = text.drop start := by
          apply List.take_of_length_le
          simp [← hL]; omega
        have htakecur : (text.drop (start + step)).take ovl = text.drop (start + step) := by
          apply List.take_of_length_le
          simp [← hL]; omega
        have hend : pyEndsWith ((text.drop start).take maxSize)
            ((text.drop (start + step)).take ovl) = true := by
          rw [htakecur, hcfull, pyEndsWith]
          have hlen : (text.drop start).length - (text.drop (start + step)).length = step := by
            simp [← hL]; omega
          rw [hlen, List.drop_drop]
          exact beq_self_eq_true _
        rw [if_pos hend, if_neg (show ¬ ovl < (text.drop (start + step)).length by
          rw [hcur_len]; omega)]
        rw [if_neg (show ¬ L ≤ start by omega)]
        have hdiv : (L - start - max ovl 1) / step = 0 := by
          apply Nat.div_eq_of_lt; omega
        rw [hdiv, show List.range (0 + 1) = [0] from rfl]
        simp
      · -- no break: continue the loop from start + step
        rw [if_neg hb]
        rw [ih (start + step) (idx + 1) (by omega)]
        by_cases hL2 : L ≤ start + step
        · rw [if_pos hL2, if_neg (show ¬ L ≤ start by omega)]
          have hdiv : (L - start - max ovl 1) / step = 0 := by
            apply Nat.div_eq_of_lt; omega
          rw [hdiv, show List.range (0 + 1) = [0] from rfl]
          simp
        · have hs2 : start + step < L := by omega
          have hnb : ovl ≤ L - (start + step) := by
            rcases Nat.lt_or_ge (L - (start + step)) ovl with hlt | hge
            · exact absurd ⟨hlt, hs2⟩ hb
            · exact hge
          rw [if_neg (show ¬ L ≤ start + step by omega),
              if_neg (show ¬ L ≤ start by omega)]
          have harith : L - start - max ovl 1 = (L - (start + step) - max ovl 1) + step := by
            omega
          rw [harith, Nat.add_div_right _ (by omega : 0 < step)]
          simp only [Option.map_some']
          congr 1
          conv_rhs => rw [range_map_shift]
          simp only [List.cons.injEq]
          refine ⟨by simp, ?_⟩
          apply List.map_congr_left
          intro j _
          have h1 : start + (j + 1) * step = start + step + j * step := by ring
          have h2 : idx + (j + 1) = idx + 1 + j := by omega
          simp [Chunk.mk.injEq, h1, h2]
    · rw [chunkLoop, if_neg hs, if_pos (by omega : L ≤ start)]

/-- Closed form of `chunk_text` for `overlap < max_chunk_size`. -/
lemma chunk_text_closed (maxSize ovl : Nat) (text : Str) (sn : Option Str)
    (h : ovl < maxSize) :
    chunk_text maxSize ovl text sn =
      (List.range (chunkCount maxSize ovl text.length)).map
        (fun k => ⟨(text.drop (k * (maxSize - ovl))).take maxSize, sn, k⟩) := by
  by_cases h0 : text = []
  · simp [chunk_text, h0, chunkCount]
  · have hlen : text.length ≠ 0 := by
      simpa using fun hl => h0 (List.length_eq_zero.mp hl)
    rw [chunk_text, if_neg h0,
        chunkLoop_closed maxSize ovl text sn h (text.length + 1) 0 0 (by omega)]
    rw [chunkCount, if_neg hlen, if_neg (show ¬ text.length ≤ 0 by omega)]
    simp

lemma nonOverlapJoin_ranges (maxSize ovl : Nat) (text : Str) (h : ovl < maxSize) :
    ∀ n start, 1 ≤ n →
      text.length ≤ start + (n - 1) * (maxSize - ovl) + maxSize →
      nonOverlapJoin (maxSize - ovl)
        ((List.range n).map (fun j => (text.drop (start + j * (maxSize - ovl))).take maxSize)) =
      text.drop start := by
  intro n
  induction n with
  | zero => intro start h1 _; omega
  | succ n ih =>
    intro start _ h2
    cases n with
    | zero =>
      rw [show List.range (0 + 1) = [0] from rfl]
      simp only [List.map_cons, List.map_nil, Nat.zero_mul, Nat.add_zero, nonOverlapJoin]
      apply List.take_of_length_le
      simp; omega
    | succ k =>
      rw [List.range_succ_eq_map]
      simp only [List.map_cons, List.map_map, Nat.zero_mul, Nat.add_zero]
      rw [nonOverlapJoin_cons _ _ _ (by
        apply List.ne_nil_of_length_pos
        simp)]
      have hw0 : ((text.drop start).take maxSize).take (maxSize - ovl) =
          (text.drop start).take (maxSize - ovl) := by
        rw [List.take_take, min_eq_left (by omega : maxSize - ovl ≤ maxSize)]
      rw [hw0]
      have hrest : (List.range (k + 1)).map
          ((fun j => (text.drop (start + j * (maxSize - ovl))).take maxSize) ∘ Nat.succ) =
          (List.range (k + 1)).map
          (fun j => (text.drop ((start + (maxSize - ovl)) + j * (maxSize - ovl))).take maxSize) := by
        apply List.map_congr_left
        intro j _
        simp only [Function.comp_apply]
        congr 2
        rw [Nat.succ_mul]; ring
      rw [hrest, ih (start + (maxSize - ovl)) (by omega) (by
        have : start + (maxSize - ovl) + (k + 1 - 1) * (maxSize - ovl) + maxSize =
            start + (k + 1) * (maxSize - ovl) + maxSize := by
          simp only [Nat.add_sub_cancel]
          rw [Nat.succ_mul]; ring
        rw [this]
        simpa using h2)]
      have hdd : text.drop (start + (maxSize - ovl)) = (text.drop start).drop (maxSize - ovl) := by
        rw [List.drop_drop, Nat.add_comm]
      rw [hdd, List.take_append_drop]

/-- The non-overlapping spans of the chunks of `chunk_text` concatenate
back to the original text (for `overlap < max_chunk_size`). -/
lemma chunk_text_reconstruct (maxSize ovl : Nat) (text : Str) (sn : Option Str)
    (h : ovl < maxSize) :
    nonOverlapJoin (maxSize - ovl) ((chunk_text maxSize ovl text sn).map Chunk.content) = text := by
  rw [chunk_text_closed maxSize ovl text sn h, List.map_map]
  by_cases h0 : text.length = 0
  · have h0' : text = [] := List.length_eq_zero.mp h0
    simp [chunkCount, h0, h0', nonOverlapJoin]
  · rw [chunkCount, if_neg h0]
    have hcomp : (Chunk.content ∘ fun k =>
        (⟨(text.drop (k * (maxSize - ovl))).take maxSize, sn, k⟩ : Chunk)) =
        (fun j => (text.drop (0 + j * (maxSize - ovl))).take maxSize) := by
      funext j; simp
    rw [hcomp]
    have hstep1 : 0 < maxSize - ovl := by omega
    have hbound : text.length ≤
        0 + ((text.length - max ovl 1) / (maxSize - ovl) + 1 - 1) * (maxSize - ovl) + maxSize := by
      have hdm := Nat.div_add_mod (text.length - max ovl 1) (maxSize - ovl)
      have hmod := Nat.mod_lt (text.length - max ovl 1) hstep1
      have h1 : ((text.length - max ovl 1) / (maxSize - ovl) + 1 - 1) * (maxSize - ovl) =
          (maxSize - ovl) * ((text.length - max ovl 1) / (maxSize - ovl)) := by
        rw [Nat.add_sub_cancel, Nat.mul_comm]
      rw [h1]
      omega
    have := nonOverlapJoin_ranges maxSize ovl text h
      ((text.length - max ovl 1) / (maxSize - ovl) + 1) 0 (Nat.le_add_left 1 _) hbound
    rw [this]
    simp

/-- Claim C1 (amended): for `overlap < max_chunk_size`, `chunk_text`
returns an initial run of the sliding windows
`T[k*step : k*step + max_size]` (`step = max_size - overlap`) with chunk
indices `0, 1, ...`; emission stops early, dropping any final window
start below `len(T)` whose remainder `len(T) - k*step` is shorter than
`overlap` (that remainder is wholly contained in the previous chunk);
concatenating the chunks' non-overlapping spans still reconstructs the
text exactly. -/
theorem chunk_text_sliding_closed_form (maxSize ovl : Nat) (text : Str) (sn : Option Str)
    (h : ovl < maxSize) :
    chunk_text maxSize ovl text sn =
      (List.range (chunkCount maxSize ovl text.length)).map
        (fun k => ⟨(text.drop (k * (maxSize - ovl))).take maxSize, sn, k⟩) ∧
    nonOverlapJoin (maxSize - ovl) ((chunk_text maxSize ovl text sn).map Chunk.content) = text :=
  ⟨chunk_text_closed maxSize ovl text sn h, chunk_text_reconstruct maxSize ovl text sn h⟩

set_option maxRecDepth 8000 in
/-- Witness for C1 at the specification's own example: `text = "a"*150`,
`max_size = 100`, `overlap = 20` gives exactly two chunks of 100 and 70
characters whose boundary regions agree. -/
theorem chunk_text_sliding_closed_form_witness :
    (20 < 100 ∧
      chunk_text 100 20 (List.replicate 150 'a') none =
        (List.range (chunkCount 100 20 (List.replicate 150 'a').length)).map
          (fun k => ⟨((List.replicate 150 'a').drop (k * 80)).take 100, none, k⟩)) ∧
    (chunk_text 100 20 (List.replicate 150 'a') none).map Chunk.content =
      [List.replicate 100 'a', List.replicate 70 'a'] ∧
    (List.replicate 100 'a').drop 80 = (List.replicate 70 'a').take 20 ∧
    (chunk_text 100 20 (List.replicate 150 'a') none).map Chunk.chunkIndex = [0, 1] := by
  refine ⟨⟨by decide, (chunk_text_sliding_closed_form 100 20 (List.replicate 150 'a') none
    (by decide)).1⟩, by decide, by decide, by decide⟩

/-- Counterexample for C1 as literally stated: with `max_size = 3`,
`overlap = 2` and `text = "abc"`, the window starts `0, 1, 2` are all
below `len(text) = 3`, so the claimed formula predicts the three windows
`"abc", "bc", "c"`; the code emits only the first two, dropping the
final window because the remainder past start `2` is shorter than the
overlap. -/
theorem chunk_text_not_plain_sliding :
    chunk_text 3 2 "abc".toList none =
      [⟨"abc".toList, none, 0⟩, ⟨"bc".toList, none, 1⟩] ∧
    chunk_text 3 2 "abc".toList none ≠
      [⟨"abc".toList, none, 0⟩, ⟨"bc".toList, none, 1⟩, ⟨"c".toList, none, 2⟩] := by
  decide

/-- The `chunk_text` while-loop, run from its initial state, exhausts
every fuel bound: the source loop never terminates on these inputs. -/
def chunkLoopDiverges (maxSize ovl : Nat) (text : Str) : Prop :=
  ∀ fuel idx, chunkLoop maxSize ovl text none fuel 0 idx = none

/-- Claim C7 (code bug): with `max_chunk_size = 0` and `overlap = 0` the
fallback `start = end` (chunker.py 228-229) sets `start = start + 0`, so
on the nonempty text `"a"` the loop makes no progress and never
terminates, contradicting both the claim and the source comment
"Avoid infinite loop if overlap >= max_chunk_size". -/
theorem chunk_text_zero_max_size_diverges : chunkLoopDiverges 0 0 "a".toList := by
  intro fuel
  induction fuel with
  | zero => intro idx; rfl
  | succ fuel ih =>
    intro idx
    rw [chunkLoop]
    rw [if_pos (by decide : (0 : Nat) < "a".toList.length)]
    rw [if_neg (by decide :
      ¬ ("a".toList.length - nextStart 0 0 0 < 0 ∧ nextStart 0 0 0 < "a".toList.length))]
    have hn : nextStart 0 0 0 = 0 := rfl
    rw [hn, ih (idx + 1)]
    rfl

/-! ## get_sections_from_json (chunker.py 47-168) -/

/-- Parsed JSON data.  Python numbers are modeled as integers (no claim
involves fractional values). -/
inductive Json where
  | str (s : Str)
  | num (n : Int)
  | bool (b : Bool)
  | null
  | arr (items : List Json)
  | obj (fields : List (Str × Json))

mutual

/-- Structural equality of JSON values (Python `==` on parsed JSON). -/
def jsonBeq : Json → Json → Bool
  | .str a, .str b => a == b
  | .num a, .num b => a == b
  | .bool a, .bool b => a == b
  | .null, .null => true
  | .arr a, .arr b => jsonBeqList a b
  | .obj a, .obj b => jsonBeqFields a b
  | _, _ => false

def jsonBeqList : List Json → List Json → Bool
  | [], [] => true
  | x :: xs, y :: ys => jsonBeq x y && jsonBeqList xs ys
  | _, _ => false

def jsonBeqFields : List (Str × Json) → List (Str × Json) → Bool
  | [], [] => true
  | (k1, v1) :: xs, (k2, v2) :: ys => k1 == k2 && jsonBeq v1 v2 && jsonBeqFields xs ys
  | _, _ => false

end

/-- Python `data.get(k)` / `data[k]` on a dict (keys are unique in a
Python dict, so first-match lookup is faithful). -/
def objGet (fields : List (Str × Json)) (k : Str) : Option Json := List.lookup k fields

/-- Python truthiness of a JSON value. -/
def pyTruthy : Json → Bool
  | .str s => !s.isEmpty
  | .num n => n != 0
  | .bool b => b
  | .null => false
  | .arr xs => !xs.isEmpty
  | .obj fs => !fs.isEmpty

/-- The characters `{` and `}` of a JSON object dump. -/
def openBrace : Char := Char.ofNat 123

def closeBrace : Char := Char.ofNat 125

/-- JSON string escaping as done by `json.dumps` (the escapes relevant
to the inputs considered; further control-character escapes never fire
on them). -/
def jsonEscape (s : Str) : Str :=
  (s.map (fun c =>
    if c = '"' then ['\\', '"']
    else if c = '\\' then ['\\', '\\']
    else if c = '\n' then ['\\', 'n']
    else if c = '\t' then ['\\', 't']
    else if c = '\r' then ['\\', 'r']
    else [c])).join

mutual

/-- Python `json.dumps` with its default separators `", "` and `": "`. -/
def jsonDumps : Json → Str
  | .str s => '"' :: (jsonEscape s ++ ['"'])
  | .num n => (toString n).toList
  | .bool b => if b then "true".toList else "false".toList
  | .null => "null".toList
  | .arr items => '[' :: (jsonDumpsList items ++ [']'])
  | .obj fields => openBrace :: (jsonDumpsFields fields ++ [closeBrace])

def jsonDumpsList : List Json → Str
  | [] => []
  | [x] => jsonDumps x
  | x :: xs => jsonDumps x ++ ", ".toList ++ jsonDumpsList xs

def jsonDumpsFields : List (Str × Json) → Str
  | [] => []
  | [(k, v)] => ('"' :: (jsonEscape k ++ ['"'])) ++ ": ".toList ++ jsonDumps v
  | (k, v) :: fs =>
    ('"' :: (jsonEscape k ++ ['"'])) ++ ": ".toList ++ jsonDumps v ++ ", ".toList ++
      jsonDumpsFields fs

end

/-- Python `str(...)` for the values it is applied to inside
`get_sections_from_json` (strings pass through; numbers, booleans and
`None` print Python-style; containers are only ever stringified through
`json.dumps` on the paths modeled here and are given that rendering for
totality). -/
def pyStr : Json → Str
  | .str s => s
  | .num n => (toString n).toList
  | .bool b => if b then "True".toList else "False".toList
  | .null => "None".toList
  | .arr items => jsonDumps (.arr items)
  | .obj fields => jsonDumps (.obj fields)

/-- Rule 2 of `get_sections_from_json` (chunker.py 64-74): one entry per
value of the `sections` mapping that is a sufficiently long string, or a
list whose string elements joined by newlines are sufficiently long. -/
def sectionsOfMapping (minLength : Nat) : List (Str × Json) → List (Option Json × Str)
  | [] => []
  | (name, .str s) :: rest =>
    if minLength ≤ s.length then (some (.str name), s) :: sectionsOfMapping minLength rest
    else sectionsOfMapping minLength rest
  | (name, .arr items) :: rest =>
    let joined := sepJoin "\n".toList
      (items.filterMap (fun v => match v with | .str s => some s | _ => none))
    if minLength ≤ joined.length then (some (.str name), joined) :: sectionsOfMapping minLength rest
    else sectionsOfMapping minLength rest
  | _ :: rest => sectionsOfMapping minLength rest

/-- Rule 3 of `get_sections_from_json` (chunker.py 76-93): elements of a
root-level list (non-dict elements are skipped, the index still counts). -/
def sectionsOfList (minLength : Nat) : Nat → List Json → List (Option Json × Str)
  | _, [] => []
  | i, .obj item :: rest =>
    let title := (objGet item "title".toList).getD
      ((objGet item "header".toList).getD (.str ("item_".toList ++ natToStr (i + 1))))
    let contentStr :=
      match objGet item "content".toList with
      | some (.str s) => s
      | _ =>
        match objGet item "text".toList with
        | some (.str s) => s
        | _ => jsonDumps (.obj item)
    if minLength ≤ contentStr.length then
      (some title, contentStr) :: sectionsOfList minLength (i + 1) rest
    else sectionsOfList minLength (i + 1) rest
  | i, _ :: rest => sectionsOfList minLength (i + 1) rest

/-- The `"key: value"` line rendering of rule 4 (chunker.py 116-122). -/
def combineFields : List (Str × Json) → Str
  | [] => []
  | (k, v) :: rest =>
    k ++ ": ".toList ++
      (match v with
       | .str s => s
       | .arr items => jsonDumps (.arr items)
       | .obj fs => jsonDumps (.obj fs)
       | other => pyStr other) ++ "\n".toList ++ combineFields rest

/-- Condition of the `elif` at chunker.py 130:
`not stripped_content and data.get("title") and data.get("title") != section_title and len(data["title"]) >= min_length`
(the first conjunct is tested at the call site).  It is never true: when
a `title` key is present, `section_title` is exactly its value, so the
`!=` conjunct fails, and without a `title` key the truthiness conjunct
fails.  The trailing Python `len(data["title"])` comparison is modeled
for string titles (for a non-string title Python `len` could raise, but
the conjuncts before it already short-circuit). -/
def titleAsContentCond (fields : List (Str × Json)) (sectionTitle : Json)
    (minLength : Nat) : Bool :=
  match objGet fields "title".toList with
  | some (.str ts) =>
    pyTruthy (.str ts) && !jsonBeq (.str ts) sectionTitle && decide (minLength ≤ ts.length)
  | some t => pyTruthy t && !jsonBeq t sectionTitle
  | none => false

/-- The dict rules of `get_sections_from_json` (chunker.py 56-166,
everything guarded by `isinstance(data, dict)` plus rules 1-2 which
index the dict).  The extraction rules apply in priority order with the
first matching rule returning.  The HTML / quoted-printable normalizer
`strip_html` (chunker.py 12-45, a regex-and-`quopri` routine) is passed
in as a function parameter; every claim settled in this file returns
before reaching the branches that apply it. -/
def getSectionsObj (stripHtml : Str → Str) (fields : List (Str × Json)) (minLength : Nat) :
    List (Option Json × Str) :=
    -- Rule 1 (chunker.py 56-62): root-level string `content`
    (match objGet fields "content".toList with
     | some (.str content) =>
       if minLength ≤ content.length then [(objGet fields "title".toList, content)] else []
     | _ =>
       -- Rule 2 (chunker.py 64-74): `sections` mapping
       let s2 :=
         match objGet fields "sections".toList with
         | some (.obj secs) => sectionsOfMapping minLength secs
         | _ => []
       if s2.isEmpty then
         -- Rule 4 (chunker.py 95-134): flat-mapping fallback
         let sectionTitle := (objGet fields "title".toList).getD (.str "document_content".toList)
         -- `not (k == "title" and data.get("title") == section_title)`: since
         -- `section_title` is `data.get("title")` whenever a title key exists,
         -- the second conjunct is exactly "a title key exists"
         let temp := fields.filter (fun kv =>
           !(kv.1 == "title".toList && (objGet fields "title".toList).isSome))
         -- `if not temp_data_for_content and data.get("title") == section_title`,
         -- with the second conjunct rendered as above (`None == section_title`
         -- is false because the default `"document_content"` is not `None`)
         if temp.isEmpty && (objGet fields "title".toList).isSome then
           -- chunker.py 109-114: the mapping held nothing but its title
           match sectionTitle with
           | .str t => if minLength ≤ t.length then [(none, t)] else []
           | _ => []
         else
           let stripped := pyStrip (combineFields temp)
           let s4 :=
             if stripped ≠ [] ∧ minLength ≤ stripped.length then [(some sectionTitle, stripped)]
             else if stripped = [] ∧ titleAsContentCond fields sectionTitle minLength = true then
               (match objGet fields "title".toList with
                | some (.str ts) => [(none, ts)]
                | _ => [])
             else []
           if s4.isEmpty then
             -- Rule 5 (chunker.py 136-141): stringify the whole mapping
             let contentStr := jsonDumps (.obj fields)
             let s5 :=
               if minLength ≤ contentStr.length then
                 [(some ((objGet fields "title".toList).getD
                     (.str "full_document_content".toList)), contentStr)]
               else []
             -- News-article tail (chunker.py 143-166); reachable only with a
             -- non-string `content` value, since rule 1 returned otherwise
             match objGet fields "content".toList with
             | some contentVal =>
               let title := (objGet fields "title".toList).getD (.str "News Article".toList)
               let cleaned :=
                 match contentVal with
                 | .str s => stripHtml s
                 | .null => []
                 | v => stripHtml (pyStr v)
               if pyTruthy title = true ∧ isBlank cleaned = false then
                 [(some (.str (pyStr title)), cleaned)]
               else if pyTruthy title = true then
                 [(some (.str (pyStr title)),
                   "[Content not available or empty after cleaning]".toList)]
               else s5
             | none => s5
           else s4
       else s2)

/-- `get_sections_from_json` (chunker.py 47-168): dispatch on the shape
of the parsed data.  Dict data goes through the prioritized rules of
`getSectionsObj`; a root-level list goes through rule 3 (on a list the
Python membership tests `"content" in data` / `"sections" in data`
either fail or the subsequent dict indexing would raise, so rule 3 is
the list counterpart of the dict rules); other roots yield no
sections. -/
def get_sections_from_json (stripHtml : Str → Str) (data : Json) (minLength : Nat) :
    List (Option Json × Str) :=
  match data with
  | .obj fields => getSectionsObj stripHtml fields minLength
  | .arr items => sectionsOfList minLength 0 items
  | _ => []

/-- Claim C10: a mapping whose top-level `content` value is a string
shorter than `min_length` yields the empty section sequence immediately;
none of the later extraction rules are consulted, whatever else the
mapping contains. -/
theorem short_content_no_fallback (stripHtml : Str → Str) (fields : List (Str × Json))
    (minLength : Nat) (c : Str)
    (hc : objGet fields "content".toList = some (.str c))
    (hshort : c.length < minLength) :
    get_sections_from_json stripHtml (.obj fields) minLength = [] := by
  have hred : get_sections_from_json stripHtml (.obj fields) minLength =
      getSectionsObj stripHtml fields minLength := rfl
  rw [hred]
  unfold getSectionsObj
  rw [hc]
  simp [show ¬ minLength ≤ c.length by omega]

/-- Witness for C10: a short `content` string suppresses a `sections`
mapping that would on its own have produced a long section. -/
theorem short_content_no_fallback_witness :
    objGet [("content".toList, .str "short".toList),
        ("sections".toList, .obj [("Item 1".toList,
          .str "A long enough section body for the fifty character rule.".toList)])]
        "content".toList = some (.str "short".toList) ∧
    ("short".toList : Str).length < 50 ∧
    get_sections_from_json id
      (.obj [("content".toList, .str "short".toList),
        ("sections".toList, .obj [("Item 1".toList,
          .str "A long enough section body for the fifty character rule.".toList)])]) 50 = [] :=
  ⟨rfl, by decide,
    short_content_no_fallback id _ 50 "short".toList rfl (by decide)⟩

set_option synthInstance.maxHeartbeats 1000000 in
/-- Claim C8: the extraction rules apply in priority order with the
first match winning: a mapping carrying a sufficiently long string
`content` yields exactly one section (whatever else it contains, in
particular a `sections` mapping); a mapping holding only a `sections`
mapping of three sufficiently long string entries yields exactly those
three sections in mapping order; the empty mapping yields no sections
(for any `min_length` above the two-character dump `{}`, in particular
the default 50). -/
theorem get_sections_priority_order (stripHtml : Str → Str) (minLength : Nat)
    (fields : List (Str × Json)) (c n1 n2 n3 s1 s2 s3 : Str)
    (hc : objGet fields "content".toList = some (.str c))
    (hlen : minLength ≤ c.length)
    (h1 : minLength ≤ s1.length) (h2 : minLength ≤ s2.length) (h3 : minLength ≤ s3.length)
    (hm : 3 ≤ minLength) :
    get_sections_from_json stripHtml (.obj fields) minLength =
      [(objGet fields "title".toList, c)] ∧
    get_sections_from_json stripHtml
      (.obj [("sections".toList, .obj [(n1, .str s1), (n2, .str s2), (n3, .str s3)])])
      minLength =
      [(some (.str n1), s1), (some (.str n2), s2), (some (.str n3), s3)] ∧
    get_sections_from_json stripHtml (.obj []) minLength = [] := by
  refine ⟨?_, ?_, ?_⟩
  · have hred : get_sections_from_json stripHtml (.obj fields) minLength =
        getSectionsObj stripHtml fields minLength := rfl
    rw [hred]
    unfold getSectionsObj
    rw [hc]
    simp [hlen]
  · have hred : get_sections_from_json stripHtml
        (.obj [("sections".toList, Json.obj [(n1, .str s1), (n2, .str s2), (n3, .str s3)])])
        minLength =
        getSectionsObj stripHtml
          [("sections".toList, Json.obj [(n1, .str s1), (n2, .str s2), (n3, .str s3)])]
          minLength := rfl
    rw [hred]
    unfold getSectionsObj
    have hc2 : objGet [("sections".toList, Json.obj [(n1, .str s1), (n2, .str s2), (n3, .str s3)])]
        "content".toList = none := rfl
    have hs2 : objGet [("sections".toList, Json.obj [(n1, .str s1), (n2, .str s2), (n3, .str s3)])]
        "sections".toList = some (.obj [(n1, .str s1), (n2, .str s2), (n3, .str s3)]) := rfl
    rw [hc2]
    simp only [hs2]
    simp [sectionsOfMapping, h1, h2, h3]
  · have hred : get_sections_from_json stripHtml (.obj []) minLength =
        getSectionsObj stripHtml [] minLength := rfl
    rw [hred]
    unfold getSectionsObj
    have hdump : jsonDumps (.obj []) = [openBrace, closeBrace] := by rfl
    simp [objGet, List.lookup, sectionsOfMapping, List.filter, combineFields, pyStrip,
      titleAsContentCond, hdump, show ¬ minLength ≤ 2 by omega]

/-- Witness for C8 at concrete inputs: a news-like document holding both
`content` and `sections`, a filing-like document holding only three
sections, and the empty mapping, all at the default `min_length = 50`. -/
theorem get_sections_priority_order_witness :
    get_sections_from_json id
      (.obj [("title".toList, .str "Big News".toList),
        ("content".toList,
          .str "This is the main content of the news story, long enough for fifty.".toList),
        ("sections".toList, .obj [("Item 1".toList,
          .str "A section body that is itself longer than fifty characters in total.".toList)])])
      50 =
      [(some (.str "Big News".toList),
        "This is the main content of the news story, long enough for fifty.".toList)] ∧
    get_sections_from_json id
      (.obj [("sections".toList, .obj
        [("Item 1".toList,
          .str "First section body, stretched out to pass the fifty character bar.".toList),
         ("Item 2".toList,
          .str "Second section body, stretched out to pass the fifty character bar.".toList),
         ("Item 3".toList,
          .str "Third section body, stretched out to pass the fifty character bar.".toList)])])
      50 =
      [(some (.str "Item 1".toList),
        "First section body, stretched out to pass the fifty character bar.".toList),
       (some (.str "Item 2".toList),
        "Second section body, stretched out to pass the fifty character bar.".toList),
       (some (.str "Item 3".toList),
        "Third section body, stretched out to pass the fifty character bar.".toList)] ∧
    get_sections_from_json id (.obj []) 50 = [] := by
  have h := get_sections_priority_order id 50
    [("title".toList, .str "Big News".toList),
     ("content".toList,
       .str "This is the main content of the news story, long enough for fifty.".toList),
     ("sections".toList, .obj [("Item 1".toList,
       .str "A section body that is itself longer than fifty characters in total.".toList)])]
    "This is the main content of the news story, long enough for fifty.".toList
    "Item 1".toList "Item 2".toList "Item 3".toList
    "First section body, stretched out to pass the fifty character bar.".toList
    "Second section body, stretched out to pass the fifty character bar.".toList
    "Third section body, stretched out to pass the fifty character bar.".toList
    rfl (by decide) (by decide) (by decide) (by decide) (by decide)
  exact ⟨by rw [h.1]; rfl, h.2.1, h.2.2⟩

/-! ## CacheManager (cache.py 6-55) -/

/-- The observable state of a `CacheManager`: the `enabled` flag and the
set of content hashes whose `<hash>.cache` marker file exists in the
cache directory (modeled as a list of keys). -/
structure CacheState where
  enabled : Bool
  marked : List Str
deriving DecidableEq

/-- `CacheManager.is_cached` (cache.py 27-37): false when disabled,
otherwise the marker file's existence. -/
def is_cached (st : CacheState) (contentHash : Str) : Bool :=
  if st.enabled = false then false else st.marked.contains contentHash

/-- `CacheManager.mark_cached` (cache.py 39-55): a no-op when disabled,
otherwise it creates the marker file (the `IOError` branch only logs;
successful writes are modeled). -/
def mark_cached (st : CacheState) (contentHash : Str) : CacheState :=
  if st.enabled = false then st else { st with marked := contentHash :: st.marked }

/-- The environment a `CacheManager` is constructed in: the requested
`enabled` flag, whether the cache directory already exists, whether
`os.makedirs` would succeed, and the marker files already present in an
existing directory. -/
structure CacheInit where
  enabled : Bool
  dirExists : Bool
  makedirsOk : Bool
  preexisting : List Str

/-- `CacheManager.__init__` (cache.py 12-21): when enabled and the
directory is missing, try to create it, and disable caching if creation
fails.  Returns the resulting state together with whether a cache
directory was created. -/
def mkCacheManager (i : CacheInit) : CacheState × Bool :=
  if i.enabled = true ∧ i.dirExists = false then
    if i.makedirsOk then ({ enabled := true, marked := [] }, true)
    else ({ enabled := false, marked := [] }, false)
  else ({ enabled := i.enabled, marked := if i.dirExists then i.preexisting else [] }, false)

/-- Claim C6: with caching disabled — either requested at construction
or forced because the cache directory could not be created — `is_cached`
returns false for every key, `mark_cached` is a no-op for every key, and
no cache directory is created. -/
theorem cache_disabled_bypass (i : CacheInit)
    (h : i.enabled = false ∨ (i.dirExists = false ∧ i.makedirsOk = false)) :
    (∀ k, is_cached (mkCacheManager i).1 k = false) ∧
    (∀ k, mark_cached (mkCacheManager i).1 k = (mkCacheManager i).1) ∧
    (mkCacheManager i).2 = false := by
  obtain ⟨e, d, m, pre⟩ := i
  rcases h with h | ⟨hd, hm⟩ <;>
    simp_all [mkCacheManager, is_cached, mark_cached] <;>
    cases e <;> simp_all

/-- Witness for C6 in the forced-disable case: construction with
`enabled = true` but a failing `os.makedirs`. -/
theorem cache_disabled_bypass_witness :
    is_cached (mkCacheManager ⟨true, false, false, ["k".toList]⟩).1 "k".toList = false ∧
    mark_cached (mkCacheManager ⟨true, false, false, ["k".toList]⟩).1 "k".toList =
      (mkCacheManager ⟨true, false, false, ["k".toList]⟩).1 ∧
    (mkCacheManager ⟨true, false, false, ["k".toList]⟩).2 = false :=
  ⟨(cache_disabled_bypass _ (Or.inr ⟨rfl, rfl⟩)).1 _,
   (cache_disabled_bypass _ (Or.inr ⟨rfl, rfl⟩)).2.1 _,
   (cache_disabled_bypass _ (Or.inr ⟨rfl, rfl⟩)).2.2⟩

/-! ## LLMSummarizer (summarization.py 19-167) -/

/-- The loaded prompt set: filing type → mode → template text, where a
template file that failed to load is recorded as `none`
(summarization.py 54-66). -/
abbrev Prompts := List (Str × List (Str × Option Str))

/-- The `ValueError` message of `get_prompt_template`
(summarization.py 98). -/
def missingTemplateMsg (mode ft : Str) : Str :=
  "Missing prompt template for mode '".toList ++ mode ++
    "' (filing_type: '".toList ++ ft ++ "')".toList

/-- `LLMSummarizer.get_prompt_template` (summarization.py 82-98): the
specific filing type's entry wins if its template loaded; otherwise fall
back to the `"default"` filing type; otherwise raise `ValueError`
(modeled as `Except.error`). -/
def get_prompt_template (prompts : Prompts) (mode ft : Str) : Except Str Str :=
  match (List.lookup ft prompts).bind (fun modes => List.lookup mode modes) with
  | some (some t) => .ok t
  | _ =>
    match (List.lookup "default".toList prompts).bind (fun modes => List.lookup mode modes) with
    | some (some t) => .ok t
    | _ => .error (missingTemplateMsg mode ft)

/-- The error string returned by `summarize` after exhausting its
retries (summarization.py 164). -/
def summarizeFailMsg (maxRetries : Nat) (e : Str) : Str :=
  "Error: Failed to generate summary after ".toList ++ natToStr (maxRetries + 1) ++
    " attempts. Last error: ".toList ++ e

/-- What one run of the `summarize` retry loop did: the returned string,
the number of `chain.run` invocations, and the `time.sleep` delays in
order. -/
structure SummarizeTrace where
  result : Str
  calls : Nat
  sleeps : List Nat
deriving DecidableEq

/-- The retry loop of `LLMSummarizer.summarize` (summarization.py
127-167).  The LLM collaborator is a function from the attempt number
(`retries`) to either a response or a raised exception's message.  On
success the response is stripped and returned; on failure `retries` is
incremented, and once it exceeds `max_retries` the explicit error string
is returned; otherwise the loop sleeps `2 ** retries` seconds and tries
again.  The `else` arm (loop guard false) returns the initial
`summary_text = ""` and is unreachable from `retries = 0`. -/
def retryLoop (maxRetries : Nat) (llm : Nat → Except Str Str) (retries : Nat) : SummarizeTrace :=
  if h1 : retries ≤ maxRetries then
    match llm retries with
    | .ok r => { result := pyStrip r, calls := 1, sleeps := [] }
    | .error e =>
      if h2 : maxRetries < retries + 1 then
        { result := summarizeFailMsg maxRetries e, calls := 1, sleeps := [] }
      else
        let t := retryLoop maxRetries llm (retries + 1)
        { result := t.result, calls := t.calls + 1, sleeps := (2 ^ (retries + 1)) :: t.sleeps }
  else { result := [], calls := 0, sleeps := [] }
termination_by maxRetries + 1 - retries
decreasing_by omega

/-- `LLMSummarizer.summarize` (summarization.py 100-167) as far as its
control flow is concerned: resolve the prompt template — a raised
`ValueError` propagates out uncaught (the `if not prompt_template`
check at lines 106-108 is dead code, since `get_prompt_template` never
returns a falsy value) — then run the retry loop.  Keyword-argument
plumbing (lines 110-122) only shapes the prompt text and is external to
the claims. -/
def summarize (prompts : Prompts) (maxRetries : Nat) (llm : Nat → Except Str Str)
    (mode ft : Str) : Except Str SummarizeTrace :=
  match get_prompt_template prompts mode ft with
  | .error e => .error e
  | .ok _t => .ok (retryLoop maxRetries llm 0)

/-- `summarize` as its callers see it: the summary string, or the
propagated exception. -/
def summarizeExc (prompts : Prompts) (maxRetries : Nat) (llm : Nat → Except Str Str)
    (mode ft : Str) : Except Str Str :=
  (summarize prompts maxRetries llm mode ft).map (fun tr => tr.result)

lemma retryLoop_all_fail (maxRetries : Nat) (llm : Nat → Except Str Str) (errs : Nat → Str)
    (hfail : ∀ i, llm i = .error (errs i)) :
    ∀ d retries, retries + d = maxRetries →
      retryLoop maxRetries llm retries =
        { result := summarizeFailMsg maxRetries (errs maxRetries),
          calls := d + 1,
          sleeps := (List.range d).map (fun j => 2 ^ (retries + 1 + j)) } := by
  intro d
  induction d with
  | zero =>
    intro retries hr
    have hr' : retries = maxRetries := by omega
    subst hr'
    rw [retryLoop, dif_pos (le_refl _), hfail retries]
    simp [show retries < retries + 1 by omega]
  | succ d ih =>
    intro retries hr
    rw [retryLoop, dif_pos (by omega : retries ≤ maxRetries), hfail retries]
    have hlt : ¬ maxRetries < retries + 1 := by omega
    simp only [hlt, dite_false, ih (retries + 1) (by omega)]
    simp only [SummarizeTrace.mk.injEq]
    refine ⟨trivial, trivial, ?_⟩
    rw [range_map_shift]
    simp only [List.cons.injEq]
    refine ⟨by norm_num, ?_⟩
    apply List.map_congr_left
    intro j _
    congr 1
    omega

/-- Claim C2: whenever `(mode, filing_type)` resolves to a prompt
template and every underlying LLM call raises, `summarize` makes exactly
`max_retries + 1` attempts, sleeping `2, 4, ..., 2^max_retries` seconds
between them (exponential backoff), and then returns — rather than
raising — a string beginning with the error marker `"Error:"`. -/
theorem summarize_all_fail_retries (prompts : Prompts) (maxRetries : Nat)
    (llm : Nat → Except Str Str) (mode ft t : Str) (errs : Nat → Str)
    (hres : get_prompt_template prompts mode ft = .ok t)
    (hfail : ∀ i, llm i = .error (errs i)) :
    ∃ tr, summarize prompts maxRetries llm mode ft = .ok tr ∧
      tr.calls = maxRetries + 1 ∧
      tr.sleeps = (List.range maxRetries).map (fun r => 2 ^ (r + 1)) ∧
      ∃ rest, tr.result = "Error:".toList ++ rest := by
  refine ⟨retryLoop maxRetries llm 0, ?_, ?_, ?_, ?_⟩
  · rw [summarize, hres]
  · rw [retryLoop_all_fail maxRetries llm errs hfail maxRetries 0 (by omega)]
  · rw [retryLoop_all_fail maxRetries llm errs hfail maxRetries 0 (by omega)]
    apply List.map_congr_left
    intro j _
    congr 1
    omega
  · rw [retryLoop_all_fail maxRetries llm errs hfail maxRetries 0 (by omega)]
    refine ⟨" Failed to generate summary after ".toList ++ natToStr (maxRetries + 1) ++
      " attempts. Last error: ".toList ++ errs maxRetries, ?_⟩
    show summarizeFailMsg maxRetries (errs maxRetries) = _
    rw [summarizeFailMsg]
    rw [show "Error: Failed to generate summary after ".toList =
      "Error:".toList ++ " Failed to generate summary after ".toList by rfl]
    simp [List.append_assoc]

/-- Witness for C2: `max_retries = 2`, a prompt set resolving
`(file, news)` through the `"default"` entry, and an LLM that always
raises: three attempts, sleeps `[2, 4]`, and an `"Error:"`-prefixed
result. -/
theorem summarize_all_fail_retries_witness :
    ∃ tr, summarize [("default".toList, [("file".toList, some "T".toList)])] 2
        (fun _ => .error "boom".toList) "file".toList "news".toList = .ok tr ∧
      tr.calls = 2 + 1 ∧
      tr.sleeps = (List.range 2).map (fun r => 2 ^ (r + 1)) ∧
      ∃ rest, tr.result = "Error:".toList ++ rest :=
  summarize_all_fail_retries [("default".toList, [("file".toList, some "T".toList)])] 2
    (fun _ => .error "boom".toList) "file".toList "news".toList "T".toList
    (fun _ => "boom".toList) rfl (fun _ => rfl)

/-! ## run_summarization (orchestrator.py 10-429) -/

/-- The externally visible actions of the per-file processing loop. -/
inductive Event where
  | llmCall (mode ft content : Str)
  | chunkCall (size ovl : Nat)
  | writeFile (tag : Str)
  | warn (tag : Str)
  | errLog (tag : Str)
deriving DecidableEq

def isLlmCall : Event → Bool
  | .llmCall _ _ _ => true
  | _ => false

def isWarnEv : Event → Bool
  | .warn _ => true
  | _ => false

/-- The collaborators `run_summarization` receives as parameters
(orchestrator.py 10-11): the cache manager's SHA-256 content hash and
the kwargs serializer (deterministic fingerprinting functions), the
chunker's `chunk_text(text, chunk_size, chunk_overlap)` as invoked at
orchestrator.py 165-169, and `summarizer.summarize(mode, filing_type,
content=...)`, whose exceptions propagate (`Except.error`). -/
structure Collab where
  hashContent : Str → Str
  dumpsCtx : Str → Str
  chunkFn : Str → Nat → Nat → List Str
  summarizeFn : Str → Str → Str → Except Str Str

/-- `LLMSummarizer.estimate_tokens` (summarization.py 36-41):
`int(len(text) / 3.5)` with 0 for empty text; `len/3.5 = 2*len/7`
exactly, and the float division never rounds across an integer
boundary for any reachable length. -/
def estimate_tokens (text : Str) : Nat :=
  if text.length = 0 then 0 else 2 * text.length / 7

/-- `content_token_limit` (orchestrator.py 130). -/
def contentTokenLimit : Nat := 190000

/-- The dynamic chunking parameters (orchestrator.py 137-161):
`num_chunks_ideal = max(2, ceil(estimated / 50000))`,
`char_chunk_size = max(20000, floor(total_chars / num_chunks_ideal))`,
`char_chunk_overlap = max(1000, int(char_chunk_size * 0.1))`. -/
def dynParams (estimated totalChars : Nat) : Nat × Nat × Nat :=
  let numChunksIdeal := max 2 ((estimated + 49999) / 50000)
  let charChunkSize := max 20000 (totalChars / numChunksIdeal)
  let charChunkOverlap := max 1000 (charChunkSize / 10)
  (numChunksIdeal, charChunkSize, charChunkOverlap)

/-- The separator joining chunk summaries (orchestrator.py 197: the
Python literal `"\\n\\n---\\n\\n"`, i.e. literal backslash-n sequences). -/
def chunkSep : Str := "\\n\\n---\\n\\n".toList

def errChunkingFailed : Str := "Error: Chunking failed to produce any text segments.".toList

def errNoValidChunks : Str :=
  "Error: Failed to generate summary from chunks (no valid chunk summaries).".toList

/-- The inline error slot for a failed chunk (orchestrator.py 194). -/
def bracketChunkErr (i : Nat) (s : Str) : Str :=
  "[Error summarizing chunk ".toList ++ natToStr (i + 1) ++ ": ".toList ++ s ++ "]".toList

def fileModeStr : Str := "file".toList

def newsFtStr : Str := "news".toList

/-- The per-chunk summarization loop of the oversized-news path
(orchestrator.py 176-194): blank chunks are skipped (the enumeration
index still advances), every other chunk is summarized — an exception
propagates — and an `"Error:"`-valued summary is wrapped in an inline
error marker instead of aborting the unit. -/
def chunkSummaries (C : Collab) : Nat → List Str → Except Str (List Event × List Str)
  | _, [] => .ok ([], [])
  | i, c :: rest =>
    if isBlank c then chunkSummaries C (i + 1) rest
    else
      match C.summarizeFn fileModeStr newsFtStr c with
      | .error e => .error e
      | .ok s =>
        (chunkSummaries C (i + 1) rest).map (fun p =>
          (Event.llmCall fileModeStr newsFtStr c :: p.1,
           (if startsWithError s then bracketChunkErr i s else s) :: p.2))

/-- The common tail of the news file-mode branch (orchestrator.py
213-254): skip blank content with a warning; hash the content together
with the serialized kwargs (the hash is computed before `content` is
added to the kwargs, line 217); skip on a cache hit; otherwise
summarize — an exception propagates — mark the cache and write the two
artifacts. -/
def newsTail (C : Collab) (title textF : Str) (st : CacheState) :
    Except Str (List Event × CacheState) :=
  if isBlank textF then .ok ([Event.warn "no content to summarize".toList], st)
  else
    if is_cached st (C.hashContent (textF ++ C.dumpsCtx title)) then .ok (([] : List Event), st)
    else
      match C.summarizeFn fileModeStr newsFtStr textF with
      | .error e => .error e
      | .ok _s =>
        .ok ([Event.llmCall fileModeStr newsFtStr textF,
              Event.writeFile "_summary.md".toList,
              Event.writeFile "_meta.json".toList],
             mark_cached st (C.hashContent (textF ++ C.dumpsCtx title)))

/-- The news branch of file mode (orchestrator.py 115-254 with
`is_news_article = True`): estimate the tokens of the article content;
if the estimate exceeds the budget, compute the dynamic chunking
parameters, chunk, summarize every chunk, and join the chunk summaries
(or substitute the explicit error strings of lines 171-174 and 199-201);
then run the common tail on the resulting text. -/
def processNewsFileBody (C : Collab) (title content : Str) (st : CacheState) :
    Except Str (List Event × CacheState) :=
  let est := estimate_tokens content
  if contentTokenLimit < est then
    let p := dynParams est content.length
    let chunks := C.chunkFn content p.2.1 p.2.2
    let text1 := if chunks.isEmpty then errChunkingFailed else content
    match chunkSummaries C 0 chunks with
    | .error e => .error e
    | .ok (evs, summaries) =>
      let text2 :=
        if summaries.isEmpty = false then sepJoin chunkSep summaries
        else if startsWithError text1 then text1
        else errNoValidChunks
      (newsTail C title text2 st).map (fun q =>
        (Event.chunkCall p.2.1 p.2.2 :: (evs ++ q.1), q.2))
  else
    newsTail C title content st

/-- The per-file loop of `run_summarization` (orchestrator.py 56-429)
specialized to news inputs in file mode.  Each entry is either `none` —
a file whose JSON failed to decode, which is logged and skipped
(orchestrator.py 60-68) — or `some (title, content)`.  Exceptions
raised by the body are not caught anywhere in the loop and abort the
remaining files. -/
def run_summarization (C : Collab) :
    List (Option (Str × Str)) → CacheState → Except Str (List Event × CacheState)
  | [], st => .ok ([], st)
  | none :: rest, st =>
    (run_summarization C rest st).map (fun p =>
      (Event.errLog "Failed to decode JSON".toList :: p.1, p.2))
  | some (title, content) :: rest, st =>
    match processNewsFileBody C title content st with
    | .error e => .error e
    | .ok (ev, st') =>
      (run_summarization C rest st').map (fun p => (ev ++ p.1, p.2))

/-- The bodies of the four mode branches, abstracted: the dispatch
claims hold for every body. -/
structure ModeBodies where
  fileNews : CacheState → Except Str (List Event × CacheState)
  node : CacheState → Except Str (List Event × CacheState)
  master : CacheState → Except Str (List Event × CacheState)
  cross : CacheState → Except Str (List Event × CacheState)

def newsModeStr : Str := "news".toList

def nodeModeStr : Str := "node".toList

def masterModeStr : Str := "master".toList

def crossModeStr : Str := "cross".toList

/-- The mode dispatch of the per-file loop: the `elif` chain at
orchestrator.py 115 (`mode == "file" or (mode == "news" and
is_news_article)`), 256 (`mode == "node" and not is_news_article`), 306
(`mode == "master" and not is_news_article`), 389 (`mode == "cross"`)
and 426-427 (the warning for a mode outside
`{file, news, node, master}`); a file matching no branch falls through
the chain with no effect. -/
def modeDispatch (B : ModeBodies) (mode : Str) (isNews : Bool) (st : CacheState) :
    Except Str (List Event × CacheState) :=
  if mode = fileModeStr ∨ (mode = newsModeStr ∧ isNews = true) then B.fileNews st
  else if mode = nodeModeStr ∧ isNews = false then B.node st
  else if mode = masterModeStr ∧ isNews = false then B.master st
  else if mode = crossModeStr then B.cross st
  else if mode ≠ fileModeStr ∧ mode ≠ newsModeStr ∧ mode ≠ nodeModeStr ∧
      mode ≠ masterModeStr then
    .ok ([Event.warn "Mode not applicable to this item type".toList], st)
  else .ok ([], st)

/-- Claim C9 (amended): in node mode a news article is skipped, but
silently: no branch of the dispatch matches — so no sections are
extracted, no summarizer call is made and no artifact is written — and
no warning is emitted either, because the final warning branch excludes
the mode name `node`.  This holds whatever the four branch bodies do. -/
theorem node_mode_news_silent_skip (B : ModeBodies) (st : CacheState) :
    modeDispatch B nodeModeStr true st = .ok ([], st) := rfl

/-- Branch bodies that visibly act, so that the silent skip below is
not an artifact of trivial bodies. -/
def cexBodies : ModeBodies where
  fileNews := fun st => .ok ([Event.llmCall fileModeStr newsFtStr "x".toList], st)
  node := fun st => .ok ([Event.llmCall nodeModeStr "default".toList "x".toList], st)
  master := fun st => .ok ([Event.llmCall masterModeStr "default".toList "x".toList], st)
  cross := fun st => .ok ([Event.llmCall crossModeStr "default".toList "x".toList], st)

/-- Counterexample for C9 as stated: dispatching a news article in node
mode emits zero events — in particular no warning — although the claim
says the skip happens "with a warning". -/
theorem node_mode_news_no_warning_cex :
    (modeDispatch cexBodies nodeModeStr true ⟨true, []⟩).map
      (fun p => (p.1.any isWarnEv, p.1.length)) = .ok (false, 0) := rfl

/-- The chunk summaries collected by the per-chunk loop when the
summarizer never raises (`g` is the summarizer's response function). -/
def okSummaries (g : Str → Str) : Nat → List Str → List Str
  | _, [] => []
  | i, c :: rest =>
    if isBlank c then okSummaries g (i + 1) rest
    else (if startsWithError (g c) then bracketChunkErr i (g c) else g c) ::
      okSummaries g (i + 1) rest

lemma chunkSummaries_ok (C : Collab) (g : Str → Str → Str → Str)
    (hOk : C.summarizeFn = fun m f c => .ok (g m f c)) :
    ∀ i cs, chunkSummaries C i cs =
      .ok ((cs.filter (fun c => !isBlank c)).map (Event.llmCall fileModeStr newsFtStr),
        okSummaries (g fileModeStr newsFtStr) i cs) := by
  intro i cs
  induction cs generalizing i with
  | nil => rfl
  | cons c rest ih =>
    by_cases hb : isBlank c
    · simp [chunkSummaries, okSummaries, hb, ih (i + 1), List.filter_cons, Except.map]
    · simp [chunkSummaries, okSummaries, hb, hOk, ih (i + 1), List.filter_cons, Except.map]

/-- The text handed to the final summarize call of the oversized-news
path (lines 171-174, 196-201): the joined chunk summaries, or the
corresponding explicit error string. -/
def dynFinalText (g1 : Str → Str) (content : Str) (chunks : List Str) : Str :=
  let text1 := if chunks.isEmpty then errChunkingFailed else content
  let summaries := okSummaries g1 0 chunks
  if summaries.isEmpty = false then sepJoin chunkSep summaries
  else if startsWithError text1 then text1
  else errNoValidChunks

lemma newsTail_ok (C : Collab) (g : Str → Str → Str → Str) (title textF : Str)
    (st : CacheState) (hOk : C.summarizeFn = fun m f c => .ok (g m f c)) :
    ∃ p, newsTail C title textF st = .ok p := by
  rw [newsTail]
  split
  · exact ⟨_, rfl⟩
  · split
    · exact ⟨_, rfl⟩
    · rw [hOk]
      exact ⟨_, rfl⟩

/-- The shape of the oversized-news branch when the summarizer never
raises: one chunker invocation, one summarize call per non-blank chunk,
then the common tail on themjoined summaries. -/
lemma processNewsFileBody_dyn (C : Collab) (g : Str → Str → Str → Str)
    (title content : Str) (st : CacheState)
    (hOk : C.summarizeFn = fun m f c => .ok (g m f c))
    (hbig : contentTokenLimit < estimate_tokens content) :
    processNewsFileBody C title content st =
      (newsTail C title
          (dynFinalText (g fileModeStr newsFtStr) content
            (C.chunkFn content (dynParams (estimate_tokens content) content.length).2.1
              (dynParams (estimate_tokens content) content.length).2.2)) st).map
        (fun q =>
          (Event.chunkCall (dynParams (estimate_tokens content) content.length).2.1
              (dynParams (estimate_tokens content) content.length).2.2 ::
            (((C.chunkFn content (dynParams (estimate_tokens content) content.length).2.1
                  (dynParams (estimate_tokens content) content.length).2.2).filter
                    (fun c => !isBlank c)).map (Event.llmCall fileModeStr newsFtStr) ++ q.1),
           q.2)) := by
  simp only [processNewsFileBody]
  rw [if_pos hbig, chunkSummaries_ok C g hOk]
  simp [dynFinalText]

/-- Claim C5: when the estimated token count of a news article's content
(`len/3.5` rounded toward zero, 0 for empty text) exceeds the
190,000-token content budget, the orchestrator calls the chunker with
character chunk size `max(20000, floor(total_chars / ideal_chunk_count))`
and overlap `max(1000, floor(0.1 * chunk_size))`, where
`ideal_chunk_count = max(2, ceil(estimated_tokens / 50000))`; the ideal
chunk count is never below 2, and 500,000 estimated tokens give exactly
10. -/
theorem dynamic_chunk_params_correct (C : Collab) (g : Str → Str → Str → Str)
    (title content : Str) (st : CacheState)
    (hOk : C.summarizeFn = fun m f c => .ok (g m f c))
    (hbig : contentTokenLimit < estimate_tokens content) :
    (∃ ev st', processNewsFileBody C title content st = .ok (ev, st') ∧
      Event.chunkCall
          (max 20000 (content.length /
            max 2 ((estimate_tokens content + 50000 - 1) / 50000)))
          (max 1000 ((max 20000 (content.length /
            max 2 ((estimate_tokens content + 50000 - 1) / 50000))) / 10)) ∈ ev) ∧
    2 ≤ max 2 ((estimate_tokens content + 50000 - 1) / 50000) ∧
    (estimate_tokens content = 500000 →
      max 2 ((estimate_tokens content + 50000 - 1) / 50000) = 10) := by
  refine ⟨?_, le_max_left _ _, ?_⟩
  · obtain ⟨p, hp⟩ := newsTail_ok C g title
      (dynFinalText (g fileModeStr newsFtStr) content
        (C.chunkFn content (dynParams (estimate_tokens content) content.length).2.1
          (dynParams (estimate_tokens content) content.length).2.2)) st hOk
    have hrun : processNewsFileBody C title content st =
        .ok (Event.chunkCall (dynParams (estimate_tokens content) content.length).2.1
            (dynParams (estimate_tokens content) content.length).2.2 ::
          (((C.chunkFn content (dynParams (estimate_tokens content) content.length).2.1
              (dynParams (estimate_tokens content) content.length).2.2).filter
                (fun c => !isBlank c)).map (Event.llmCall fileModeStr newsFtStr) ++ p.1),
          p.2) := by
      rw [processNewsFileBody_dyn C g title content st hOk hbig, hp]
      rfl
    refine ⟨_, _, hrun, ?_⟩
    have he : estimate_tokens content + 50000 - 1 = estimate_tokens content + 49999 := by omega
    rw [he]
    have hA : max 20000 (content.length / max 2 ((estimate_tokens content + 49999) / 50000)) =
        (dynParams (estimate_tokens content) content.length).2.1 := rfl
    rw [hA]
    have hB : max 1000 ((dynParams (estimate_tokens content) content.length).2.1 / 10) =
        (dynParams (estimate_tokens content) content.length).2.2 := rfl
    rw [hB]
    exact List.mem_cons_self _ _
  · intro h500
    rw [h500]
    norm_num

/-- Witness for C5: an article of 1,750,000 characters estimates to
exactly 500,000 tokens; the orchestrator asks the chunker for chunks of
175,000 characters with overlap 17,500, and the ideal chunk count is
10. -/
theorem dynamic_chunk_params_correct_witness :
    (∃ ev st', processNewsFileBody
        ⟨fun s => s, fun t => t, fun _ _ _ => ["c1".toList, "c2".toList],
         fun _ _ _ => .ok "S".toList⟩
        "t".toList (List.replicate 1750000 'a') ⟨true, []⟩ = .ok (ev, st') ∧
      Event.chunkCall 175000 17500 ∈ ev) ∧
    estimate_tokens (List.replicate 1750000 'a') = 500000 ∧
    max 2 ((estimate_tokens (List.replicate 1750000 'a') + 50000 - 1) / 50000) = 10 := by
  have hlen : (List.replicate 1750000 'a').length = 1750000 := by
    rw [List.length_replicate]
  have hest : estimate_tokens (List.replicate 1750000 'a') = 500000 := by
    rw [estimate_tokens, hlen]
    norm_num
  have h := dynamic_chunk_params_correct
    ⟨fun s => s, fun t => t, fun _ _ _ => ["c1".toList, "c2".toList],
     fun _ _ _ => .ok "S".toList⟩
    (fun _ _ _ => "S".toList) "t".toList (List.replicate 1750000 'a') ⟨true, []⟩
    rfl (by rw [hest]; norm_num [contentTokenLimit])
  obtain ⟨⟨ev, st', hrun, hmem⟩, _h2, h10⟩ := h
  refine ⟨⟨ev, st', hrun, ?_⟩, hest, h10 hest⟩
  have harg : max 20000 ((List.replicate 1750000 'a').length /
      max 2 ((estimate_tokens (List.replicate 1750000 'a') + 50000 - 1) / 50000)) = 175000 := by
    rw [hest, hlen]
    norm_num
  have harg2 : max 1000 ((175000 : Nat) / 10) = 17500 := by norm_num
  rw [harg, harg2] at hmem
  exact hmem

def dynSizeOf (content : Str) : Nat := (dynParams (estimate_tokens content) content.length).2.1

def dynOvlOf (content : Str) : Nat := (dynParams (estimate_tokens content) content.length).2.2

/-- The chunk list the orchestrator obtains for an oversized article. -/
def dynChunksOf (C : Collab) (content : Str) : List Str :=
  C.chunkFn content (dynSizeOf content) (dynOvlOf content)

lemma newsTail_mark (C : Collab) (g : Str → Str → Str → Str) (title textF : Str)
    (st : CacheState) (p : List Event × CacheState)
    (hOk : C.summarizeFn = fun m f c => .ok (g m f c))
    (hEn : st.enabled = true)
    (hq : newsTail C title textF st = .ok p) :
    p.2.enabled = true ∧
    (isBlank textF = false →
      is_cached p.2 (C.hashContent (textF ++ C.dumpsCtx title)) = true) := by
  rw [newsTail] at hq
  by_cases hb : isBlank textF
  · rw [if_pos hb] at hq
    simp only [Except.ok.injEq] at hq
    subst hq
    exact ⟨hEn, fun hnb => by rw [hb] at hnb; cases hnb⟩
  · rw [if_neg hb] at hq
    by_cases hc : is_cached st (C.hashContent (textF ++ C.dumpsCtx title))
    · rw [if_pos hc] at hq
      simp only [Except.ok.injEq] at hq
      subst hq
      exact ⟨hEn, fun _ => hc⟩
    · rw [if_neg hc, hOk] at hq
      simp only [Except.ok.injEq] at hq
      subst hq
      refine ⟨?_, fun _ => ?_⟩
      · simp [mark_cached, hEn]
      · simp [is_cached, mark_cached, hEn]

/-- Claim C4 (amended): for an enabled cache a fresh key reads uncached
and any key reads cached right after `mark_cached`; repeating an
identical news file-mode request against the state left by a first run
performs zero additional LLM calls when the content was not dynamically
chunked (the repeat emits no events at all, beyond the blank-content
warning for blank content); but in the dynamic-chunking path for
oversized news articles the per-chunk LLM calls are issued again before
the cache is consulted — the warm cache suppresses only the final
recombination call. -/
theorem cache_idempotence_and_repeat (C : Collab) (g : Str → Str → Str → Str)
    (title content : Str) (st0 st1 : CacheState) (ev1 : List Event)
    (hOk : C.summarizeFn = fun m f c => .ok (g m f c))
    (hEn : st0.enabled = true)
    (hrun1 : processNewsFileBody C title content st0 = .ok (ev1, st1)) :
    (∀ st (k : Str), st.enabled = true →
      ((k ∉ st.marked → is_cached st k = false) ∧ is_cached (mark_cached st k) k = true)) ∧
    (estimate_tokens content ≤ contentTokenLimit →
      processNewsFileBody C title content st1 =
        .ok ((if isBlank content then [Event.warn "no content to summarize".toList]
          else []), st1)) ∧
    (contentTokenLimit < estimate_tokens content →
      isBlank (dynFinalText (g fileModeStr newsFtStr) content (dynChunksOf C content)) = false →
      processNewsFileBody C title content st1 =
        .ok (Event.chunkCall (dynSizeOf content) (dynOvlOf content) ::
          ((dynChunksOf C content).filter (fun c => !isBlank c)).map
            (Event.llmCall fileModeStr newsFtStr), st1)) := by
  refine ⟨?_, ?_, ?_⟩
  · intro st k hst
    constructor
    · intro hk
      simp [is_cached, hst]
      intro hc
      exact absurd hc hk
    · simp [is_cached, mark_cached, hst]
  · intro hle
    have hred : ∀ st', processNewsFileBody C title content st' = newsTail C title content st' := by
      intro st'
      simp only [processNewsFileBody]
      rw [if_neg (by omega)]
    rw [hred] at hrun1
    rw [hred]
    by_cases hb : isBlank content
    · rw [newsTail, if_pos hb]
      simp [hb]
    · obtain ⟨_hen1, hkey⟩ := newsTail_mark C g title content st0 (ev1, st1) hOk hEn hrun1
      rw [newsTail, if_neg hb, if_pos (hkey (by simp [hb]))]
      simp [hb]
  · intro hbig hnb
    rw [processNewsFileBody_dyn C g title content st0 hOk hbig] at hrun1
    obtain ⟨p, hp⟩ := newsTail_ok C g title
      (dynFinalText (g fileModeStr newsFtStr) content
        (C.chunkFn content (dynParams (estimate_tokens content) content.length).2.1
          (dynParams (estimate_tokens content) content.length).2.2)) st0 hOk
    rw [hp] at hrun1
    simp only [Except.map, Except.ok.injEq] at hrun1
    have hst1 : st1 = p.2 := by
      have := congrArg Prod.snd hrun1
      simpa using this.symm
    obtain ⟨_hen1, hkey⟩ := newsTail_mark C g title
      (dynFinalText (g fileModeStr newsFtStr) content
        (C.chunkFn content (dynParams (estimate_tokens content) content.length).2.1
          (dynParams (estimate_tokens content) content.length).2.2)) st0 p hOk hEn hp
    rw [processNewsFileBody_dyn C g title content st1 hOk hbig]
    rw [newsTail, if_neg (by
      rw [show C.chunkFn content (dynParams (estimate_tokens content) content.length).2.1
          (dynParams (estimate_tokens content) content.length).2.2 = dynChunksOf C content
        from rfl]
      simp [hnb])]
    rw [if_pos (by
      rw [hst1]
      exact hkey (by
        rw [show C.chunkFn content (dynParams (estimate_tokens content) content.length).2.1
            (dynParams (estimate_tokens content) content.length).2.2 = dynChunksOf C content
          from rfl]
        exact hnb))]
    simp [Except.map, dynSizeOf, dynOvlOf, dynChunksOf]

/-- Witness for C4: a fresh enabled cache misses and then hits after
marking, and a second run over a small (non-chunked) news article with
the cache state left by the first run emits no events at all. -/
theorem cache_idempotence_and_repeat_witness :
    ((("k".toList : Str) ∉ (⟨true, []⟩ : CacheState).marked →
        is_cached ⟨true, []⟩ "k".toList = false) ∧
      is_cached (mark_cached ⟨true, []⟩ "k".toList) "k".toList = true) ∧
    processNewsFileBody ⟨fun s => s, fun t => t, fun _ _ _ => [], fun _ _ _ => .ok "S".toList⟩
      "t".toList "hello world".toList ⟨true, ["hello worldt".toList]⟩ =
      .ok ([], ⟨true, ["hello worldt".toList]⟩) := by
  have h := cache_idempotence_and_repeat
    ⟨fun s => s, fun t => t, fun _ _ _ => [], fun _ _ _ => .ok "S".toList⟩
    (fun _ _ _ => "S".toList) "t".toList "hello world".toList
    ⟨true, []⟩ ⟨true, ["hello worldt".toList]⟩
    [Event.llmCall fileModeStr newsFtStr "hello world".toList,
     Event.writeFile "_summary.md".toList, Event.writeFile "_meta.json".toList]
    rfl rfl (by rfl)
  refine ⟨h.1 ⟨true, []⟩ "k".toList rfl, ?_⟩
  exact (h.2.1 (by decide)).trans (by rfl)

/-- The oversized article of the dynamic-chunking counterexample:
700,000 characters estimate to 200,000 tokens, over the budget. -/
def bigNews : Str := List.replicate 700000 'a'

/-- Concrete collaborators for the counterexample: identity hashing and
serialization, a chunker producing two chunks, a summarizer answering
`"S"`. -/
def cexCollab : Collab where
  hashContent := fun s => s
  dumpsCtx := fun t => t
  chunkFn := fun _ _ _ => ["c1".toList, "c2".toList]
  summarizeFn := fun _ _ _ => .ok "S".toList

/-- Counterexample for C4 as stated: repeating the identical oversized
news request against the cache state left by the first run still issues
the two per-chunk LLM calls (only the final recombination call and the
writes are skipped), so the repeat performs two additional LLM calls,
not zero. -/
theorem warm_cache_dynamic_llm_calls_cex :
    processNewsFileBody cexCollab "t".toList bigNews ⟨true, []⟩ =
      .ok ([Event.chunkCall 175000 17500,
            Event.llmCall fileModeStr newsFtStr "c1".toList,
            Event.llmCall fileModeStr newsFtStr "c2".toList,
            Event.llmCall fileModeStr newsFtStr "S\\n\\n---\\n\\nS".toList,
            Event.writeFile "_summary.md".toList,
            Event.writeFile "_meta.json".toList],
           ⟨true, ["S\\n\\n---\\n\\nSt".toList]⟩) ∧
    processNewsFileBody cexCollab "t".toList bigNews ⟨true, ["S\\n\\n---\\n\\nSt".toList]⟩ =
      .ok ([Event.chunkCall 175000 17500,
            Event.llmCall fileModeStr newsFtStr "c1".toList,
            Event.llmCall fileModeStr newsFtStr "c2".toList],
           ⟨true, ["S\\n\\n---\\n\\nSt".toList]⟩) ∧
    ([Event.chunkCall 175000 17500,
      Event.llmCall fileModeStr newsFtStr "c1".toList,
      Event.llmCall fileModeStr newsFtStr "c2".toList].filter isLlmCall).length = 2 := by
  have hg : cexCollab.summarizeFn =
      fun m f c => .ok ((fun _ _ _ => "S".toList : Str → Str → Str → Str) m f c) := rfl
  have hlen : bigNews.length = 700000 := by
    rw [show bigNews = List.replicate 700000 'a' from rfl, List.length_replicate]
  have hest : estimate_tokens bigNews = 200000 := by
    rw [estimate_tokens, hlen]
    norm_num
  have hbig : contentTokenLimit < estimate_tokens bigNews := by
    rw [hest]
    norm_num [contentTokenLimit]
  have hdp : dynParams (estimate_tokens bigNews) bigNews.length = (4, 175000, 17500) := by
    rw [hest, hlen]
    norm_num [dynParams]
  have hch : cexCollab.chunkFn bigNews ((4, 175000, 17500) : Nat × Nat × Nat).2.1
      ((4, 175000, 17500) : Nat × Nat × Nat).2.2 = ["c1".toList, "c2".toList] := rfl
  have hfin : dynFinalText
      ((fun _ _ _ => "S".toList : Str → Str → Str → Str) fileModeStr newsFtStr) bigNews
      ["c1".toList, "c2".toList] = "S\\n\\n---\\n\\nS".toList := by decide
  refine ⟨?_, ?_, by decide⟩
  · rw [processNewsFileBody_dyn cexCollab _ "t".toList bigNews ⟨true, []⟩ hg hbig, hdp, hch,
      hfin]
    rfl
  · rw [processNewsFileBody_dyn cexCollab _ "t".toList bigNews
      ⟨true, ["S\\n\\n---\\n\\nSt".toList]⟩ hg hbig, hdp, hch, hfin]
    rfl

/-- Concrete collaborators for the missing-template batch abort: the
summarizer is the real `summarize` over an empty prompt set, whose
`get_prompt_template` raises for every mode. -/
def cexCollabC3 : Collab where
  hashContent := fun s => s
  dumpsCtx := fun t => t
  chunkFn := fun _ _ _ => []
  summarizeFn := fun m f _ => summarizeExc ([] : Prompts) 2 (fun _ => .error "x".toList) m f

/-- Claim C3 (amended): when no prompt template exists for the requested
mode and filing type and the `"default"` entry provides none either,
`get_prompt_template`'s `ValueError` propagates out of `summarize`
uncaught (the error-string return at summarization.py 106-108 is dead
code), and out of `run_summarization`'s per-file loop, aborting the
batch: the files after the failing one are never processed.  Only
files whose JSON fails to decode are skipped with the loop
continuing. -/
theorem missing_template_aborts_batch (C : Collab) (prompts : Prompts) (maxRetries : Nat)
    (llm : Nat → Except Str Str) (title content : Str) (rest : List (Option (Str × Str)))
    (st : CacheState) (em : Str)
    (hSF : C.summarizeFn = fun m f _c => summarizeExc prompts maxRetries llm m f)
    (hmiss : get_prompt_template prompts fileModeStr newsFtStr = .error em)
    (hsmall : estimate_tokens content ≤ contentTokenLimit)
    (hnb : isBlank content = false)
    (hfresh : is_cached st (C.hashContent (content ++ C.dumpsCtx title)) = false) :
    run_summarization C (some (title, content) :: rest) st = .error em ∧
    ∀ (rest' : List (Option (Str × Str))) (st' : CacheState),
      run_summarization C ((none : Option (Str × Str)) :: rest') st' =
        (run_summarization C rest' st').map (fun p =>
          (Event.errLog "Failed to decode JSON".toList :: p.1, p.2)) := by
  constructor
  · have hbody : processNewsFileBody C title content st = .error em := by
      simp only [processNewsFileBody]
      rw [if_neg (by omega : ¬ contentTokenLimit < estimate_tokens content)]
      rw [newsTail, if_neg (by simp [hnb]), if_neg (by simp [hfresh]), hSF]
      simp [summarizeExc, summarize, hmiss, Except.map]
    simp [run_summarization, hbody]
  · intro rest' st'
    rfl

/-- Witness for C3: an empty prompt set, a well-formed news file, and a
second file behind it; the batch aborts with the `ValueError` message
and the second file is never reached. -/
theorem missing_template_aborts_batch_witness :
    run_summarization cexCollabC3
      [some ("w1".toList, "witness news body one".toList),
       some ("w2".toList, "witness news body two".toList)] ⟨true, []⟩ =
      .error (missingTemplateMsg fileModeStr newsFtStr) ∧
    ∀ (rest' : List (Option (Str × Str))) (st' : CacheState),
      run_summarization cexCollabC3 ((none : Option (Str × Str)) :: rest') st' =
        (run_summarization cexCollabC3 rest' st').map (fun p =>
          (Event.errLog "Failed to decode JSON".toList :: p.1, p.2)) :=
  missing_template_aborts_batch cexCollabC3 ([] : Prompts) 2 (fun _ => .error "x".toList)
    "w1".toList "witness news body one".toList
    [some ("w2".toList, "witness news body two".toList)] ⟨true, []⟩
    (missingTemplateMsg fileModeStr newsFtStr) rfl rfl (by decide) (by decide) rfl

/-- Counterexample for C3 as stated: with no template configured at all,
processing two news files yields an uncaught `ValueError` from the
first — the batch result is the exception, not an error-valued summary,
and the second file is never processed. -/
theorem missing_template_aborts_batch_cex :
    run_summarization cexCollabC3
      [some ("t1".toList, "first news body".toList),
       some ("t2".toList, "second news body".toList)] ⟨true, []⟩ =
      .error (missingTemplateMsg fileModeStr newsFtStr) := by
  rfl

end MDA
